import Mathlib

/-!
Shallow embedding of the identity-and-workspace core of the `chat` repository
(`chat_server/src/models/user.rs` and `chat_server/src/models/workspace.rs`).
The Postgres store reached through the sqlx pool is modelled as an explicit
in-memory state (`Store`) threaded through every operation; each fallible
operation returns an `Except AppError` result paired with the state after the
call, so that writes committed before a later failure are preserved exactly as
they are in the database.  The random argon2 salt drawn from `OsRng` is passed
as an explicit parameter.
-/

namespace Chat

/-- Modelled from the spec: the PHC hash string produced by the external
`argon2` crate (a collaborator, not code of this repository).  A well-formed
PHC string is the `phc` constructor carrying the salt and a perfectly
collision-resistant digest of the password (idealized as the password itself,
so that the spec's "with overwhelming probability" becomes "always"); every
other string, including the empty string, is `raw` and fails to parse as a
`PasswordHash`. -/
inductive HashString where
  | phc (salt : Nat) (digest : String)
  | raw (s : String)
deriving Repr, DecidableEq

/-- Modelled from the spec: the `AppError` taxonomy (`error.rs` is not among
the provided sources).  `rowNotFound` stands for sqlx `fetch_one` finding no
row, `passwordHashError` for the `argon2::password_hash::Error` raised when a
stored hash string fails to parse, `workspaceNameConflict` for the store's
unique-constraint rejection of a duplicate workspace name. -/
inductive AppError where
  | emailAlreadyExists (email : String)
  | rowNotFound
  | passwordHashError
  | workspaceNameConflict
deriving Repr, DecidableEq

/-- Modelled from the spec (§3): the `User` row (`models/mod.rs` is not among
the provided sources; the fields are exactly the columns used by the queries
in `user.rs`).  `password_hash` is `none` on every row shape whose SELECT or
RETURNING clause omits the column, and on scrubbed values. -/
structure User where
  id : Nat
  ws_id : Nat
  fullname : String
  email : String
  password_hash : Option HashString
  created_at : Nat
deriving Repr, DecidableEq

/-- Modelled from the spec (§3): the `Workspace` row; `owner_id = 0` is the
"no owner yet" sentinel. -/
structure Workspace where
  id : Nat
  name : String
  owner_id : Nat
  created_at : Nat
deriving Repr, DecidableEq

/-- Modelled from the spec (§3): the `ChatUser` projection — id, fullname and
email only. -/
structure ChatUser where
  id : Nat
  fullname : String
  email : String
deriving Repr, DecidableEq

/-- `CreateUser` (user.rs). -/
structure CreateUser where
  fullname : String
  email : String
  workspace : String
  password : String
deriving Repr, DecidableEq

/-- `SigninUser` (user.rs). -/
structure SigninUser where
  email : String
  password : String
deriving Repr, DecidableEq

/-- The relational store: the `users` and `workspaces` tables as lists in
insertion order, plus the serial counters from which the store assigns ids. -/
structure Store where
  users : List User
  workspaces : List Workspace
  nextUserId : Nat
  nextWsId : Nat
deriving Repr, DecidableEq

/-- Store well-formedness: every id was assigned by the serial counters, hence
is below the next value to be drawn, and ids are pairwise distinct within each
table. -/
def Store.WF (s : Store) : Prop :=
  (∀ u ∈ s.users, u.id < s.nextUserId) ∧
  (∀ w ∈ s.workspaces, w.id < s.nextWsId) ∧
  (s.users.map User.id).Nodup ∧
  (s.workspaces.map Workspace.id).Nodup

instance : DecidablePred Store.WF := fun s => by
  unfold Store.WF; infer_instance

/-- `hash_password` (user.rs): argon2 hashing under a drawn salt.  The Rust
function returns `Result` but can only fail on hasher-internal errors, which
the spec classifies as fatal configuration errors; the model makes it total.
-/
def hash_password (password : String) (salt : Nat) : HashString :=
  HashString.phc salt password

/-- `verify_password` (user.rs): `PasswordHash::new` fails on any string that
is not a well-formed PHC string and the `?` propagates that as an error;
otherwise argon2 verification compares the password against the stored
digest. -/
def verify_password (password : String) (h : HashString) :
    Except AppError Bool :=
  match h with
  | .phc _ digest => .ok (password == digest)
  | .raw _ => .error .passwordHashError

/-- `User::find_by_email` (user.rs): the SELECT omits the `password_hash`
column, so the returned row carries no hash. -/
def User.find_by_email (email : String) (s : Store) : Option User :=
  (s.users.find? (fun u => u.email == email)).map
    (fun u => { u with password_hash := none })

/-- `Workspace::create` (workspace.rs): INSERT .. RETURNING; the store's
unique constraint on `name` rejects a duplicate. -/
def Workspace.create (name : String) (user_id : Nat) (s : Store) :
    Except AppError Workspace × Store :=
  if s.workspaces.any (fun w => w.name == name) then
    (.error .workspaceNameConflict, s)
  else
    let ws : Workspace :=
      { id := s.nextWsId, name := name, owner_id := user_id,
        created_at := s.nextWsId }
    (.ok ws,
     { s with workspaces := s.workspaces ++ [ws], nextWsId := s.nextWsId + 1 })

/-- `Workspace::find_by_name` (workspace.rs). -/
def Workspace.find_by_name (name : String) (s : Store) : Option Workspace :=
  s.workspaces.find? (fun w => w.name == name)

/-- `Workspace::find_by_id` (workspace.rs). -/
def Workspace.find_by_id (id : Nat) (s : Store) : Option Workspace :=
  s.workspaces.find? (fun w => w.id == id)

/-- `Workspace::update_owner` (workspace.rs): `UPDATE workspaces SET owner_id
= $1 WHERE id = $2 AND (SELECT ws_id FROM users WHERE id = $1) = $2` with
`RETURNING`, through `fetch_one`, which turns an empty result into an error.
The SQL places no condition on the current `owner_id`. -/
def Workspace.update_owner (ws : Workspace) (user_id : Nat) (s : Store) :
    Except AppError Workspace × Store :=
  if ((s.users.find? (fun u => u.id == user_id)).map
        (fun u => u.ws_id == ws.id)).getD false then
    match s.workspaces.find? (fun w => w.id == ws.id) with
    | some w =>
        (.ok { w with owner_id := user_id },
         { s with workspaces :=
            s.workspaces.map (fun x =>
              if x.id == ws.id then { x with owner_id := user_id } else x) })
    | none => (.error .rowNotFound, s)
  else (.error .rowNotFound, s)

/-- `Workspace::fetch_all_chat_users` (workspace.rs): `SELECT id, fullname,
email FROM users WHERE ws_id = $1` through `fetch_all`.  The SQL has no ORDER
BY clause, so the engine is free to yield the table's rows in any order: the
row order the engine actually scans is an explicit parameter `scan`, and a
`scan` is admissible for a store `s` exactly when it is a permutation of
`s.users`. -/
def Workspace.fetch_all_chat_users (id : Nat) (scan : List User) :
    List ChatUser :=
  (scan.filter (fun u => u.ws_id == id)).map
    (fun u => { id := u.id, fullname := u.fullname, email := u.email })

/-- Lines 56-59 of `User::create` (user.rs): the owner-promotion tail.  When
the resolved workspace was unowned, promotion is attempted and its error —
`fetch_one` finding no row because the UPDATE's condition matched nothing — is
propagated by the `?` operator. -/
def User.finishCreate (ws : Workspace) (user : User) (s : Store) :
    Except AppError User × Store :=
  if ws.owner_id == 0 then
    match Workspace.update_owner ws user.id s with
    | (.ok _, s2) => (.ok user, s2)
    | (.error e, s2) => (.error e, s2)
  else (.ok user, s)

/-- `User::create` (user.rs): duplicate-email pre-check, find-or-create the
workspace (created unowned, `owner_id = 0`), hash the password, INSERT the
user bound to the resolved workspace's id (the RETURNING clause omits
`password_hash`), then the owner-promotion tail `User.finishCreate`. -/
def User.create (input : CreateUser) (salt : Nat) (s : Store) :
    Except AppError User × Store :=
  match User.find_by_email input.email s with
  | some _ => (.error (.emailAlreadyExists input.email), s)
  | none =>
    match
      (match Workspace.find_by_name input.workspace s with
       | some ws => (Except.ok ws, s)
       | none => Workspace.create input.workspace 0 s) with
    | (.error e, s1) => (.error e, s1)
    | (.ok ws, s1) =>
      let ph := hash_password input.password salt
      let user : User :=
        { id := s1.nextUserId, ws_id := ws.id, fullname := input.fullname,
          email := input.email, password_hash := none,
          created_at := s1.nextUserId }
      let s2 : Store :=
        { s1 with
            users := s1.users ++ [{ user with password_hash := some ph }],
            nextUserId := s1.nextUserId + 1 }
      User.finishCreate ws user s2

/-- `User::verify` (user.rs): SELECT including `password_hash`; `mem::take`
scrubs the hash out of the user value; `unwrap_or_default` turns a missing
hash into the empty string; a `verify_password` error propagates via `?`. -/
def User.verify (input : SigninUser) (s : Store) :
    Except AppError (Option User) :=
  match s.users.find? (fun u => u.email == input.email) with
  | some user =>
    match verify_password input.password
        (user.password_hash.getD (HashString.raw "")) with
    | .ok true => .ok (some { user with password_hash := none })
    | .ok false => .ok none
    | .error e => .error e
  | none => .ok none

/-- The empty store the scenarios start from. -/
def store0 : Store :=
  { users := [], workspaces := [], nextUserId := 1, nextWsId := 1 }

/-- The signup input of the spec's first scenario. -/
def tchen : CreateUser :=
  { fullname := "Tyr Chen", email := "tchen@acme.org", workspace := "none",
    password := "hunter42" }

/-- The user row the first scenario's signup returns. -/
def tchenUser : User :=
  { id := 1, ws_id := 1, fullname := "Tyr Chen", email := "tchen@acme.org",
    password_hash := none, created_at := 1 }

/-- A workspace still carrying the unowned sentinel. -/
def wsUnowned : Workspace :=
  { id := 1, name := "w", owner_id := 0, created_at := 1 }

/-- A user who belongs to workspace 2, not to `wsUnowned`. -/
def strayUser : User :=
  { id := 2, ws_id := 2, fullname := "B", email := "b@b",
    password_hash := none, created_at := 2 }

/-- A store in which `wsUnowned` is unowned and `strayUser` belongs to the
other workspace, so promoting `strayUser` into `wsUnowned` matches no row. -/
def mismatchStore : Store :=
  { users := [strayUser],
    workspaces := [wsUnowned, { id := 2, name := "v", owner_id := 0,
                                created_at := 2 }],
    nextUserId := 3, nextWsId := 3 }

/-- A store holding one user whose stored password hash is absent. -/
def noHashStore : Store :=
  { users := [{ id := 1, ws_id := 1, fullname := "A", email := "a@b",
                password_hash := none, created_at := 1 }],
    workspaces := [{ id := 1, name := "w", owner_id := 1, created_at := 1 }],
    nextUserId := 2, nextWsId := 2 }

/-- The "acme" scenario: the workspace is created explicitly, then three
users sign up into it in sequence. -/
def acmeInput (fullname email : String) : CreateUser :=
  { fullname := fullname, email := email, workspace := "acme",
    password := "hunter42" }

/-- The store after the three sequential "acme" signups. -/
def acmeStore3 : Store :=
  (User.create (acmeInput "Bob" "bob@acme.org") 2
    (User.create (acmeInput "Alice" "alice@acme.org") 1
      (User.create (acmeInput "Tyr Chen" "tchen@acme.org") 0
        (Workspace.create "acme" 0 store0).2).2).2).2

/-! ### Helper lemmas -/

instance {ε α : Type} [DecidableEq ε] [DecidableEq α] :
    DecidableEq (Except ε α) := fun a b =>
  match a, b with
  | .ok x, .ok y =>
    if h : x = y then .isTrue (by rw [h]) else .isFalse (by simp [h])
  | .error x, .error y =>
    if h : x = y then .isTrue (by rw [h]) else .isFalse (by simp [h])
  | .ok _, .error _ => .isFalse (by simp)
  | .error _, .ok _ => .isFalse (by simp)

theorem find?_append_right {α : Type} (l1 l2 : List α) (p : α → Bool)
    (h : ∀ x ∈ l1, ¬ p x = true) : (l1 ++ l2).find? p = l2.find? p := by
  rw [List.find?_append, List.find?_eq_none.mpr h, Option.none_or]

theorem map_eq_self_of_fix {α : Type} (l : List α) (f : α → α)
    (h : ∀ x ∈ l, f x = x) : l.map f = l :=
  (List.map_congr_left h).trans (List.map_id l)

theorem find?_eq_of_unique {α : Type} (p : α → Bool) (u : α) :
    ∀ l : List α, u ∈ l → p u = true →
      (∀ x ∈ l, p x = true → x = u) → l.find? p = some u
  | [], hmem, _, _ => absurd hmem (List.not_mem_nil u)
  | a :: t, hmem, hp, huniq => by
    by_cases ha : p a = true
    · rw [List.find?_cons_of_pos _ ha, huniq a (by simp) ha]
    · rw [List.find?_cons_of_neg _ ha]
      rcases List.mem_cons.mp hmem with rfl | hmem2
      · exact absurd hp ha
      · exact find?_eq_of_unique p u t hmem2 hp
          (fun x hx hpx => huniq x (List.mem_cons_of_mem _ hx) hpx)

/-- An `update_owner` failure reports `rowNotFound` and leaves the store
untouched. -/
theorem update_owner_error_state (ws : Workspace) (uid : Nat) (s : Store)
    (e : AppError) (h : (Workspace.update_owner ws uid s).1 = .error e) :
    e = .rowNotFound ∧ (Workspace.update_owner ws uid s).2 = s := by
  unfold Workspace.update_owner at h ⊢
  split at h
  · split at h <;> simp_all
  · simp_all

/-- The create tail returns `.ok` only with the user it was given. -/
theorem finishCreate_ok_shape (ws : Workspace) (u v : User) (s : Store)
    (h : (User.finishCreate ws u s).1 = .ok v) : v = u := by
  unfold User.finishCreate at h
  split at h
  · split at h <;> simp_all
  · simp_all

/-- The create tail fails only with `rowNotFound` (the `fetch_one` error of
the conditional UPDATE). -/
theorem finishCreate_error_shape (ws : Workspace) (u : User) (s : Store)
    (e : AppError) (h : (User.finishCreate ws u s).1 = .error e) :
    e = .rowNotFound := by
  unfold User.finishCreate at h
  split at h
  · split at h
    · simp_all
    · rename_i e2 s2 heq
      have h2 := (update_owner_error_state ws u.id s e2 (by rw [heq])).1
      simp_all
  · simp_all

/-- `Workspace.create` fails only with the unique-name conflict. -/
theorem workspace_create_error_shape (name : String) (uid : Nat) (s : Store)
    (e : AppError) (h : (Workspace.create name uid s).1 = .error e) :
    e = .workspaceNameConflict := by
  unfold Workspace.create at h
  split at h <;> simp_all

/-! ### Claims -/

/-- Claim C2: for every CreateUser input whose email equals the email of an
already-existing user, `User.create` fails with `EmailAlreadyExists` carrying
that email, leaving the store as it was. -/
theorem user_create_duplicate_email (input : CreateUser) (salt : Nat)
    (s : Store) (u : User)
    (h : User.find_by_email input.email s = some u) :
    User.create input salt s =
      (.error (.emailAlreadyExists input.email), s) := by
  unfold User.create
  rw [h]

/-- Witness for C2 at the spec's scenario: a second signup with the email
already taken by the first fails with `EmailAlreadyExists "tchen@acme.org"`. -/
theorem user_create_duplicate_email_witness :
    User.find_by_email tchen.email (User.create tchen 0 store0).2 =
      some tchenUser ∧
    User.create tchen 1 (User.create tchen 0 store0).2 =
      (.error (.emailAlreadyExists "tchen@acme.org"),
       (User.create tchen 0 store0).2) :=
  ⟨by decide, user_create_duplicate_email tchen 1 _ tchenUser (by decide)⟩

/-- Claim C8: password round-trip — verification succeeds on the hash of the
same password under any salt, and fails on the hash of any other password. -/
theorem password_round_trip :
    (∀ p salt, verify_password p (hash_password p salt) = .ok true) ∧
    (∀ p1 p2 salt, p1 ≠ p2 →
      verify_password p2 (hash_password p1 salt) = .ok false) := by
  refine ⟨fun p salt => by simp [verify_password, hash_password],
          fun p1 p2 salt h => ?_⟩
  simp only [verify_password, hash_password, Except.ok.injEq]
  exact beq_eq_false_iff_ne.mpr (fun hh => h hh.symm)

/-- Witness for C8 at concrete passwords and salt. -/
theorem password_round_trip_witness :
    verify_password "hunter42" (hash_password "hunter42" 3) = .ok true ∧
    verify_password "hunter43" (hash_password "hunter42" 3) = .ok false :=
  ⟨password_round_trip.1 "hunter42" 3,
   password_round_trip.2 "hunter42" "hunter43" 3 (by decide)⟩

/-- Claim C4 counterexample: signin against an existing user whose stored
password hash is absent makes `User.verify` return an error — the hash-parse
failure raised by `PasswordHash::new` on the empty string propagates through
`?` — and not the claimed `Ok(None)`. -/
theorem user_verify_missing_hash_counterexample :
    User.verify { email := "a@b", password := "x" } noHashStore =
      .error .passwordHashError ∧
    User.verify { email := "a@b", password := "x" } noHashStore ≠
      .ok none := by
  exact ⟨by decide, by decide⟩

/-- Claim C4 (amended): when the signin email matches a stored user whose
password hash is absent, empty, or otherwise fails to parse as a PHC string,
`User.verify` propagates the hash-parse error (`Err`), rather than returning
the no-match result `Ok(None)`. -/
theorem user_verify_malformed_hash (input : SigninUser) (s : Store) (u : User)
    (str : String)
    (hfind : s.users.find? (fun x => x.email == input.email) = some u)
    (hraw : u.password_hash.getD (HashString.raw "") = HashString.raw str) :
    User.verify input s = .error .passwordHashError := by
  unfold User.verify
  rw [hfind]
  simp only [hraw, verify_password]

/-- Witness for the amended C4 at a concrete store with a hash-less user. -/
theorem user_verify_malformed_hash_witness :
    User.verify { email := "a@b", password := "x" } noHashStore =
      .error .passwordHashError :=
  user_verify_malformed_hash { email := "a@b", password := "x" } noHashStore
    { id := 1, ws_id := 1, fullname := "A", email := "a@b",
      password_hash := none, created_at := 1 } ""
    (by decide) (by decide)

/-- Claim C3 counterexample: with the resolved workspace unowned
(`owner_id = 0`) and the owner-promotion attempt failing because the UPDATE's
condition matches no row, the promotion tail of `User::create` (lines 56-59
of user.rs) returns the error — the `?` operator propagates it — instead of
the claimed successfully created user. -/
theorem finishCreate_swallows_counterexample :
    wsUnowned.owner_id = 0 ∧
    (Workspace.update_owner wsUnowned strayUser.id mismatchStore).1 =
      .error .rowNotFound ∧
    (User.finishCreate wsUnowned strayUser mismatchStore).1 =
      .error .rowNotFound ∧
    (User.finishCreate wsUnowned strayUser mismatchStore).1 ≠
      .ok strayUser := by
  exact ⟨by decide, by decide, by decide, by decide⟩

/-- Claim C3 (amended): a promotion failure is propagated, not swallowed —
when the resolved workspace had `owner_id == 0` and the `update_owner` call
fails, the promotion tail of `User::create` returns that error; the store is
left exactly as `update_owner` left it, so the user row inserted before the
tail remains in the store even though the call reports failure. -/
theorem finishCreate_propagates (ws : Workspace) (u : User) (s : Store)
    (e : AppError)
    (h0 : ws.owner_id = 0)
    (herr : (Workspace.update_owner ws u.id s).1 = .error e) :
    User.finishCreate ws u s =
      (.error e, (Workspace.update_owner ws u.id s).2) := by
  have hcond : (ws.owner_id == 0) = true := by simp [h0]
  unfold User.finishCreate
  rw [if_pos hcond]
  cases hu : Workspace.update_owner ws u.id s with
  | mk r s2 =>
    cases r with
    | ok w => simp_all
    | error e2 => simp_all

/-- Witness for the amended C3 at the concrete mismatch store. -/
theorem finishCreate_propagates_witness :
    User.finishCreate wsUnowned strayUser mismatchStore =
      (.error .rowNotFound,
       (Workspace.update_owner wsUnowned strayUser.id mismatchStore).2) :=
  finishCreate_propagates wsUnowned strayUser mismatchStore .rowNotFound
    (by decide) (by decide)

/-- Claim C10: when `User.create` fails with `EmailAlreadyExists`, the store
is unchanged — the duplicate-email pre-check runs before any write — and the
reported email is the input's. -/
theorem user_create_email_conflict_no_write (input : CreateUser) (salt : Nat)
    (s : Store) (e : String)
    (h : (User.create input salt s).1 = .error (.emailAlreadyExists e)) :
    (User.create input salt s).2 = s ∧ e = input.email := by
  unfold User.create at h ⊢
  cases hfind : User.find_by_email input.email s with
  | some u =>
    rw [hfind] at h
    simp at h
    exact ⟨rfl, h.symm⟩
  | none =>
    rw [hfind] at h
    cases hwn : Workspace.find_by_name input.workspace s with
    | some ws =>
      rw [hwn] at h
      exact absurd (finishCreate_error_shape ws _ _ _ h) (by simp)
    | none =>
      rw [hwn] at h
      cases hwc : Workspace.create input.workspace 0 s with
      | mk r s1 =>
        rw [hwc] at h
        cases r with
        | error e2 =>
          have h2 := workspace_create_error_shape input.workspace 0 s e2
            (by rw [hwc])
          simp at h
          simp_all
        | ok ws =>
          exact absurd (finishCreate_error_shape ws _ _ _ h) (by simp)

/-- Witness for C10: the failing second signup of the spec's scenario leaves
the store exactly as the first signup left it. -/
theorem user_create_email_conflict_no_write_witness :
    (User.create tchen 1 (User.create tchen 0 store0).2).2 =
      (User.create tchen 0 store0).2 ∧
    "tchen@acme.org" = tchen.email :=
  user_create_email_conflict_no_write tchen 1 (User.create tchen 0 store0).2
    "tchen@acme.org" (by decide)

/-- Claim C9: no password material escapes — a user returned by
`User.create`, `User.find_by_email` or `User.verify` carries
`password_hash = none`, and every ChatUser listed by `fetch_all_chat_users`
is exactly the id-fullname-email projection of a stored user. -/
theorem no_password_material_escapes :
    (∀ input salt s u, (User.create input salt s).1 = .ok u →
      u.password_hash = none) ∧
    (∀ email s u, User.find_by_email email s = some u →
      u.password_hash = none) ∧
    (∀ input s u, User.verify input s = .ok (some u) →
      u.password_hash = none) ∧
    (∀ (wid : Nat) (s : Store) (scan : List User) (cu : ChatUser),
      scan.Perm s.users →
      cu ∈ Workspace.fetch_all_chat_users wid scan →
      ∃ x ∈ s.users,
        cu = { id := x.id, fullname := x.fullname, email := x.email }) := by
  refine ⟨?_, ?_, ?_, ?_⟩
  · intro input salt s u h
    unfold User.create at h
    cases hfind : User.find_by_email input.email s with
    | some v => rw [hfind] at h; simp at h
    | none =>
      rw [hfind] at h
      cases hwn : Workspace.find_by_name input.workspace s with
      | some ws =>
        rw [hwn] at h
        have h2 := finishCreate_ok_shape ws _ u _ h
        subst h2; rfl
      | none =>
        rw [hwn] at h
        cases hwc : Workspace.create input.workspace 0 s with
        | mk r s1 =>
          rw [hwc] at h
          cases r with
          | error e2 => simp at h
          | ok ws =>
            have h2 := finishCreate_ok_shape ws _ u _ h
            subst h2; rfl
  · intro email s u h
    unfold User.find_by_email at h
    cases hf : s.users.find? (fun x => x.email == email) with
    | none => rw [hf] at h; simp at h
    | some v =>
      rw [hf, Option.map_some'] at h
      injection h with h2
      rw [← h2]
  · intro input s u h
    unfold User.verify at h
    cases hf : s.users.find? (fun x => x.email == input.email) with
    | none => rw [hf] at h; simp at h
    | some v =>
      rw [hf] at h
      have h2 : (match verify_password input.password
            (v.password_hash.getD (HashString.raw "")) with
          | Except.ok true =>
              Except.ok (some { v with password_hash := none })
          | Except.ok false => (Except.ok none : Except AppError (Option User))
          | Except.error e => Except.error e) = Except.ok (some u) := h
      cases hv : verify_password input.password
          (v.password_hash.getD (HashString.raw "")) with
      | error e => rw [hv] at h2; simp at h2
      | ok b =>
        rw [hv] at h2
        cases b with
        | false => simp at h2
        | true => simp at h2; subst h2; rfl
  · intro wid s scan cu hperm h
    unfold Workspace.fetch_all_chat_users at h
    simp only [List.mem_map, List.mem_filter] at h
    obtain ⟨x, ⟨hx, hws⟩, rfl⟩ := h
    exact ⟨x, hperm.mem_iff.mp hx, rfl⟩

/-- Witness for C9: the scenario signup's returned user carries no hash. -/
theorem no_password_material_escapes_witness :
    tchenUser.password_hash = none :=
  no_password_material_escapes.1 tchen 0 store0 tchenUser (by decide)

/-- Claim C6 (code_bug): the SELECT behind `fetch_all_chat_users` has no
ORDER BY clause, so the engine may yield the acme workspace's three users in
any table order.  Scanning the table in insertion order reproduces the
creation order the repository's own `workspace_should_fetch_all_chat_users`
test asserts, but the reversed scan — an equally admissible result order for
the very same store — returns the same three rows in descending id order, so
the claimed creation-order guarantee is not a property of the query. -/
theorem fetch_all_order_not_guaranteed :
    acmeStore3.users.reverse.Perm acmeStore3.users ∧
    Workspace.fetch_all_chat_users 1 acmeStore3.users =
      [{ id := 1, fullname := "Tyr Chen", email := "tchen@acme.org" },
       { id := 2, fullname := "Alice", email := "alice@acme.org" },
       { id := 3, fullname := "Bob", email := "bob@acme.org" }] ∧
    Workspace.fetch_all_chat_users 1 acmeStore3.users.reverse =
      [{ id := 3, fullname := "Bob", email := "bob@acme.org" },
       { id := 2, fullname := "Alice", email := "alice@acme.org" },
       { id := 1, fullname := "Tyr Chen", email := "tchen@acme.org" }] ∧
    (Workspace.fetch_all_chat_users 1 acmeStore3.users.reverse).Perm
      (Workspace.fetch_all_chat_users 1 acmeStore3.users) ∧
    ¬ (Workspace.fetch_all_chat_users 1 acmeStore3.users.reverse).Pairwise
      (fun a b => a.id < b.id) :=
  ⟨List.reverse_perm _, by decide, by decide, by decide, by decide⟩

/-- Claim C7: with the workspace row present in the store,
`Workspace.update_owner ws user_id` succeeds — returning the updated row —
exactly when the user named by `user_id` exists and belongs to `ws`; when
that condition fails for every stored user it reports that no row matched
(`rowNotFound`) and updates nothing. -/
theorem update_owner_iff (ws : Workspace) (uid : Nat) (s : Store)
    (hwf : s.WF)
    (hws : Workspace.find_by_id ws.id s = some ws) :
    ((Workspace.update_owner ws uid s).1 =
        .ok { ws with owner_id := uid } ↔
      ∃ u ∈ s.users, u.id = uid ∧ u.ws_id = ws.id) ∧
    ((∀ u ∈ s.users, u.id = uid → u.ws_id ≠ ws.id) →
      Workspace.update_owner ws uid s = (.error .rowNotFound, s)) := by
  obtain ⟨hu1, hw1, hu2, hw2⟩ := hwf
  have hwsf : s.workspaces.find? (fun w => w.id == ws.id) = some ws := hws
  constructor
  · constructor
    · intro h
      unfold Workspace.update_owner at h
      split at h
      · rename_i hcond
        cases hf : s.users.find? (fun u => u.id == uid) with
        | none => rw [hf] at hcond; simp at hcond
        | some u =>
          rw [hf] at hcond
          simp at hcond
          exact ⟨u, List.mem_of_find?_eq_some hf,
            by simpa using List.find?_some hf, hcond⟩
      · simp at h
    · rintro ⟨u, hmem, hid, hwsid⟩
      have hf : s.users.find? (fun x => x.id == uid) = some u :=
        find?_eq_of_unique _ u s.users hmem (by simpa using hid)
          (fun x hx hpx =>
            List.inj_on_of_nodup_map hu2 hx hmem
              (by simp at hpx; rw [hpx, hid]))
      unfold Workspace.update_owner
      rw [hf]
      simp only [Option.map_some', Option.getD_some, hwsid]
      rw [if_pos (by simp), hwsf]
  · intro hnone
    unfold Workspace.update_owner
    cases hf : s.users.find? (fun x => x.id == uid) with
    | none => simp
    | some u =>
      have hid : u.id = uid := by simpa using List.find?_some hf
      have := hnone u (List.mem_of_find?_eq_some hf) hid
      simp only [Option.map_some', Option.getD_some]
      rw [if_neg (by simpa using this)]

/-- Witness for C7 at the "acme" store: promoting Alice (user 2, a member of
workspace 1) succeeds and returns the updated row. -/
theorem update_owner_iff_witness :
    (Workspace.update_owner
        { id := 1, name := "acme", owner_id := 1, created_at := 1 }
        2 acmeStore3).1 =
      .ok { id := 1, name := "acme", owner_id := 2, created_at := 1 } :=
  ((update_owner_iff
      { id := 1, name := "acme", owner_id := 1, created_at := 1 }
      2 acmeStore3 (by decide) (by decide)).1).mpr
    ⟨{ id := 2, ws_id := 1, fullname := "Alice", email := "alice@acme.org",
       password_hash := some (hash_password "hunter42" 1), created_at := 2 },
     by decide, by decide, by decide⟩

/-- Claim C1: a signup whose email matches no existing user and whose
workspace name matches no existing workspace creates the workspace with
`owner_id = 0`, inserts the user with `ws_id` equal to the newly created
workspace's id, promotes the workspace's `owner_id` to the new user's id,
and returns the created user (hash-free; the stored row keeps the hash). -/
theorem user_create_fresh (input : CreateUser) (salt : Nat) (s : Store)
    (hwf : s.WF)
    (hemail : User.find_by_email input.email s = none)
    (hname : Workspace.find_by_name input.workspace s = none) :
    ∃ u : User,
      User.create input salt s =
        (.ok u,
         { users := s.users ++
            [{ u with
                password_hash := some (hash_password input.password salt) }],
           workspaces := s.workspaces ++
            [{ id := s.nextWsId, name := input.workspace, owner_id := u.id,
               created_at := s.nextWsId }],
           nextUserId := s.nextUserId + 1, nextWsId := s.nextWsId + 1 }) ∧
      u.id = s.nextUserId ∧ u.ws_id = s.nextWsId ∧
      u.email = input.email ∧ u.fullname = input.fullname ∧
      u.password_hash = none ∧
      (Workspace.create input.workspace 0 s).1 =
        .ok { id := s.nextWsId, name := input.workspace, owner_id := 0,
              created_at := s.nextWsId } := by
  obtain ⟨hu1, hw1, hu2, hw2⟩ := hwf
  have hfname : s.workspaces.find? (fun w => w.name == input.workspace) =
      none := hname
  have hany : s.workspaces.any (fun w => w.name == input.workspace) =
      false := by
    rw [List.any_eq_false]
    exact fun x hx => List.find?_eq_none.mp hfname x hx
  refine ⟨{ id := s.nextUserId, ws_id := s.nextWsId,
            fullname := input.fullname, email := input.email,
            password_hash := none, created_at := s.nextUserId },
          ?_, rfl, rfl, rfl, rfl, rfl, ?_⟩
  · have hfu : (s.users ++
        [({ id := s.nextUserId, ws_id := s.nextWsId,
            fullname := input.fullname, email := input.email,
            password_hash := some (hash_password input.password salt),
            created_at := s.nextUserId } : User)]).find?
          (fun x => x.id == s.nextUserId) =
        some { id := s.nextUserId, ws_id := s.nextWsId,
               fullname := input.fullname, email := input.email,
               password_hash := some (hash_password input.password salt),
               created_at := s.nextUserId } := by
      have hpre : ∀ x ∈ s.users, ¬ (fun x => x.id == s.nextUserId) x = true :=
        fun x hx => by simpa using Nat.ne_of_lt (hu1 x hx)
      rw [find?_append_right _ _ _ hpre, List.find?_cons_of_pos _ (by simp)]
    have hfw : (s.workspaces ++
        [({ id := s.nextWsId, name := input.workspace, owner_id := 0,
            created_at := s.nextWsId } : Workspace)]).find?
          (fun x => x.id == s.nextWsId) =
        some { id := s.nextWsId, name := input.workspace, owner_id := 0,
               created_at := s.nextWsId } := by
      have hpre : ∀ x ∈ s.workspaces,
          ¬ (fun x => x.id == s.nextWsId) x = true :=
        fun x hx => by simpa using Nat.ne_of_lt (hw1 x hx)
      rw [find?_append_right _ _ _ hpre, List.find?_cons_of_pos _ (by simp)]
    have hmap : (s.workspaces ++
        [({ id := s.nextWsId, name := input.workspace, owner_id := 0,
            created_at := s.nextWsId } : Workspace)]).map
          (fun x => if x.id == s.nextWsId
            then { x with owner_id := s.nextUserId } else x) =
        s.workspaces ++
          [{ id := s.nextWsId, name := input.workspace,
             owner_id := s.nextUserId, created_at := s.nextWsId }] := by
      rw [List.map_append,
        map_eq_self_of_fix _ _ (fun x hx => by
          rw [if_neg (by simpa using Nat.ne_of_lt (hw1 x hx))])]
      simp
    have hupd : Workspace.update_owner
        { id := s.nextWsId, name := input.workspace, owner_id := 0,
          created_at := s.nextWsId }
        s.nextUserId
        { users := s.users ++
            [{ id := s.nextUserId, ws_id := s.nextWsId,
               fullname := input.fullname, email := input.email,
               password_hash := some (hash_password input.password salt),
               created_at := s.nextUserId }],
          workspaces := s.workspaces ++
            [{ id := s.nextWsId, name := input.workspace, owner_id := 0,
               created_at := s.nextWsId }],
          nextUserId := s.nextUserId + 1, nextWsId := s.nextWsId + 1 } =
        (.ok { id := s.nextWsId, name := input.workspace,
               owner_id := s.nextUserId, created_at := s.nextWsId },
         { users := s.users ++
            [{ id := s.nextUserId, ws_id := s.nextWsId,
               fullname := input.fullname, email := input.email,
               password_hash := some (hash_password input.password salt),
               created_at := s.nextUserId }],
           workspaces := s.workspaces ++
            [{ id := s.nextWsId, name := input.workspace,
               owner_id := s.nextUserId, created_at := s.nextWsId }],
           nextUserId := s.nextUserId + 1, nextWsId := s.nextWsId + 1 }) := by
      unfold Workspace.update_owner
      rw [hfu]
      simp only [Option.map_some', Option.getD_some]
      rw [if_pos (by simp), hfw, hmap]
    have step1 : User.create input salt s =
        User.finishCreate
          { id := s.nextWsId, name := input.workspace, owner_id := 0,
            created_at := s.nextWsId }
          { id := s.nextUserId, ws_id := s.nextWsId,
            fullname := input.fullname, email := input.email,
            password_hash := none, created_at := s.nextUserId }
          { users := s.users ++
              [{ id := s.nextUserId, ws_id := s.nextWsId,
                 fullname := input.fullname, email := input.email,
                 password_hash := some (hash_password input.password salt),
                 created_at := s.nextUserId }],
            workspaces := s.workspaces ++
              [{ id := s.nextWsId, name := input.workspace, owner_id := 0,
                 created_at := s.nextWsId }],
            nextUserId := s.nextUserId + 1, nextWsId := s.nextWsId + 1 } := by
      unfold User.create
      rw [hemail, hname]
      unfold Workspace.create
      rw [hany]
      rfl
    rw [step1]
    unfold User.finishCreate
    rw [if_pos (by simp), hupd]
  · unfold Workspace.create
    rw [hany]
    rfl

/-- Witness for C1: the spec's first scenario on the empty store. -/
theorem user_create_fresh_witness :
    ∃ u : User,
      User.create tchen 0 store0 =
        (.ok u,
         { users := store0.users ++
            [{ u with
                password_hash := some (hash_password tchen.password 0) }],
           workspaces := store0.workspaces ++
            [{ id := store0.nextWsId, name := tchen.workspace,
               owner_id := u.id, created_at := store0.nextWsId }],
           nextUserId := store0.nextUserId + 1,
           nextWsId := store0.nextWsId + 1 }) ∧
      u.id = store0.nextUserId ∧ u.ws_id = store0.nextWsId ∧
      u.email = tchen.email ∧ u.fullname = tchen.fullname ∧
      u.password_hash = none ∧
      (Workspace.create tchen.workspace 0 store0).1 =
        .ok { id := store0.nextWsId, name := tchen.workspace, owner_id := 0,
              created_at := store0.nextWsId } :=
  user_create_fresh tchen 0 store0 (by decide) (by decide) (by decide)

/-- Claim C5 counterexample: on the reachable "acme" store — built by a
`Workspace.create` and three `User.create` calls — workspace 1 is owned by
user 1, yet a further `Workspace.update_owner` call (a core operation, whose
SQL has no `owner_id = 0` condition) succeeds and reassigns `owner_id` from
1 to 2, so the owner transitions a second time and the repeated promotion
attempt is not a no-op. -/
theorem owner_reassigned_counterexample :
    (Workspace.find_by_id 1 acmeStore3).map Workspace.owner_id = some 1 ∧
    (Workspace.update_owner
        { id := 1, name := "acme", owner_id := 1, created_at := 1 }
        2 acmeStore3).1 =
      .ok { id := 1, name := "acme", owner_id := 2, created_at := 1 } ∧
    (Workspace.find_by_id 1
        (Workspace.update_owner
          { id := 1, name := "acme", owner_id := 1, created_at := 1 }
          2 acmeStore3).2).map Workspace.owner_id = some 2 := by
  exact ⟨by decide, by decide, by decide⟩

theorem find_map_update (l : List Workspace) (tid uid wid : Nat)
    (h : wid ≠ tid) :
    (l.map (fun x =>
      if x.id == tid then { x with owner_id := uid } else x)).find?
        (fun x => x.id == wid) =
      l.find? (fun x => x.id == wid) := by
  induction l with
  | nil => rfl
  | cons a t ih =>
    rw [List.map_cons]
    by_cases haw : a.id = wid
    · have hat : ¬ a.id = tid := by rw [haw]; exact h
      rw [if_neg (by simpa using hat),
        List.find?_cons_of_pos _ (by simpa using haw),
        List.find?_cons_of_pos _ (by simpa using haw)]
    · by_cases hat : a.id = tid
      · rw [if_pos (by simpa using hat),
          List.find?_cons_of_neg _ (by simpa using haw),
          List.find?_cons_of_neg _ (by simpa using haw), ih]
      · rw [if_neg (by simpa using hat),
          List.find?_cons_of_neg _ (by simpa using haw),
          List.find?_cons_of_neg _ (by simpa using haw), ih]

/-- `update_owner` leaves every workspace row other than its target
untouched. -/
theorem update_owner_preserves_other (ws : Workspace) (uid : Nat) (s : Store)
    (wid : Nat) (w : Workspace) (hne : wid ≠ ws.id)
    (hfind : s.workspaces.find? (fun x => x.id == wid) = some w) :
    (Workspace.update_owner ws uid s).2.workspaces.find?
      (fun x => x.id == wid) = some w := by
  unfold Workspace.update_owner
  split
  · split
    · exact (find_map_update s.workspaces ws.id uid wid hne).trans hfind
    · exact hfind
  · exact hfind

/-- The create tail leaves every workspace row other than the resolved
workspace untouched. -/
theorem finishCreate_preserves_other (ws : Workspace) (u : User) (s2 : Store)
    (wid : Nat) (w : Workspace)
    (hcase : wid ≠ ws.id ∨ ws.owner_id ≠ 0)
    (hfind : s2.workspaces.find? (fun x => x.id == wid) = some w) :
    (User.finishCreate ws u s2).2.workspaces.find?
      (fun x => x.id == wid) = some w := by
  unfold User.finishCreate
  split
  · rename_i hguard
    have hne : wid ≠ ws.id := by
      rcases hcase with h | h
      · exact h
      · exact absurd (by simpa using hguard) h
    cases hupd : Workspace.update_owner ws u.id s2 with
    | mk r s3 =>
      have h3 := update_owner_preserves_other ws u.id s2 wid w hne hfind
      rw [hupd] at h3
      cases r with
      | ok w2 => exact h3
      | error e => exact h3
  · exact hfind

/-- Claim C5 (amended): under the operations actually reachable from the
handlers — `User.create` and the read-only calls — a workspace's `owner_id`
transitions at most once from `0` and is never changed once nonzero, and
re-promoting the current owner through `update_owner` succeeds as a no-op;
`Workspace.update_owner` itself, however, carries no `owner_id = 0` guard
and can reassign ownership to any other member (the counterexample). -/
theorem owner_promotion_stable :
    (∀ input salt s wid w, Store.WF s →
      Workspace.find_by_id wid s = some w → w.owner_id ≠ 0 →
      Workspace.find_by_id wid (User.create input salt s).2 = some w) ∧
    (∀ ws uid s, Store.WF s →
      Workspace.find_by_id ws.id s = some ws → ws.owner_id = uid →
      (∃ u ∈ s.users, u.id = uid ∧ u.ws_id = ws.id) →
      Workspace.update_owner ws uid s = (.ok ws, s)) := by
  constructor
  · rintro input salt s wid w hwf hfind hnz
    obtain ⟨hu1, hw1, hu2, hw2⟩ := hwf
    have hfindf : s.workspaces.find? (fun x => x.id == wid) = some w := hfind
    have hmemw : w ∈ s.workspaces := List.mem_of_find?_eq_some hfindf
    have hwidw : w.id = wid := by simpa using List.find?_some hfindf
    have hwidlt : wid < s.nextWsId := hwidw ▸ hw1 w hmemw
    unfold User.create
    cases hfe : User.find_by_email input.email s with
    | some v => exact hfind
    | none =>
      cases hwn : Workspace.find_by_name input.workspace s with
      | some ws0 =>
        have hmem0 : ws0 ∈ s.workspaces := List.mem_of_find?_eq_some hwn
        by_cases h0 : ws0.owner_id = 0
        · have hne : wid ≠ ws0.id := by
            intro he
            have hw_eq : w = ws0 :=
              List.inj_on_of_nodup_map hw2 hmemw hmem0 (by rw [hwidw, he])
            rw [hw_eq] at hnz
            exact hnz h0
          exact finishCreate_preserves_other ws0 _ _ wid w (Or.inl hne) hfindf
        · exact finishCreate_preserves_other ws0 _ _ wid w (Or.inr h0) hfindf
      | none =>
        have hany : s.workspaces.any (fun x => x.name == input.workspace) =
            false := by
          rw [List.any_eq_false]
          exact fun x hx => List.find?_eq_none.mp hwn x hx
        unfold Workspace.create
        rw [hany]
        have hne : wid ≠ s.nextWsId := Nat.ne_of_lt hwidlt
        have hfindf2 : (s.workspaces ++
            [({ id := s.nextWsId, name := input.workspace, owner_id := 0,
                created_at := s.nextWsId } : Workspace)]).find?
              (fun x => x.id == wid) = some w := by
          rw [List.find?_append, hfindf, Option.or_some]
        exact finishCreate_preserves_other _ _ _ wid w (Or.inl hne) hfindf2
  · rintro ws uid s ⟨hu1, hw1, hu2, hw2⟩ hws hown ⟨u, hmem, hid, hwsid⟩
    have hwsf : s.workspaces.find? (fun x => x.id == ws.id) = some ws := hws
    have hmemws : ws ∈ s.workspaces := List.mem_of_find?_eq_some hwsf
    have hf : s.users.find? (fun x => x.id == uid) = some u :=
      find?_eq_of_unique _ u s.users hmem (by simpa using hid)
        (fun x hx hpx =>
          List.inj_on_of_nodup_map hu2 hx hmem
            (by simp at hpx; rw [hpx, hid]))
    unfold Workspace.update_owner
    rw [hf]
    simp only [Option.map_some', Option.getD_some, hwsid]
    rw [if_pos (by simp), hwsf]
    have hmapeq : s.workspaces.map (fun x =>
        if x.id == ws.id then { x with owner_id := uid } else x) =
        s.workspaces :=
      map_eq_self_of_fix _ _ (fun x hx => by
        by_cases hxid : x.id = ws.id
        · have hx_eq : x = ws :=
            List.inj_on_of_nodup_map hw2 hx hmemws hxid
          subst hx_eq
          rw [if_pos (by simp), ← hown]
        · rw [if_neg (by simpa using hxid)])
    rw [hmapeq, ← hown]

/-- Witness for the amended C5 on the "acme" store: a fourth signup leaves
workspace 1's owner untouched, and re-promoting the current owner is a
successful no-op. -/
theorem owner_promotion_stable_witness :
    Workspace.find_by_id 1 (User.create
      { fullname := "Carl", email := "carl@acme.org", workspace := "acme",
        password := "pw" } 3 acmeStore3).2 =
      some { id := 1, name := "acme", owner_id := 1, created_at := 1 } ∧
    Workspace.update_owner
        { id := 1, name := "acme", owner_id := 1, created_at := 1 } 1
        acmeStore3 =
      (.ok { id := 1, name := "acme", owner_id := 1, created_at := 1 },
       acmeStore3) :=
  ⟨owner_promotion_stable.1 _ 3 acmeStore3 1
      { id := 1, name := "acme", owner_id := 1, created_at := 1 }
      (by decide) (by decide) (by decide),
   owner_promotion_stable.2
      { id := 1, name := "acme", owner_id := 1, created_at := 1 } 1 acmeStore3
      (by decide) (by decide) (by decide)
      ⟨{ id := 1, ws_id := 1, fullname := "Tyr Chen",
         email := "tchen@acme.org",
         password_hash := some (hash_password "hunter42" 0),
         created_at := 1 },
       by decide, by decide, by decide⟩⟩

end Chat
